import Mathlib

/-!
Verification of the Banking_Rag document-analysis pipeline.

This file gives a shallow embedding of the core of the repository
(`services.py`, `utils.py`, `main.py`): the JSON parsing and regex-based
recovery used by `detect_errors`, the three pipeline stages wired by
`build_graph`, the per-file index store (`initialize_vector_store`,
`index_documents`, `load_vector_store`, the delete endpoint) and the
upload retry loop.  LLM and embedding providers are modelled as oracle
functions; every provider interaction is recorded in an explicit trace so
that claims about "no provider call is made" are expressible.
-/

namespace BankingRag

/-! ### Characters and whitespace

Python `str.strip` / regex `\s` whitespace (ASCII part) and JSON
(RFC 8259 / `json.loads`) whitespace.  Bracket/brace/quote/backslash
characters are named via their code points. -/

def lbrackC : Char := Char.ofNat 91

def rbrackC : Char := Char.ofNat 93

def lbraceC : Char := Char.ofNat 123

def rbraceC : Char := Char.ofNat 125

def quoteC : Char := Char.ofNat 34

def backslashC : Char := Char.ofNat 92

/-- ASCII whitespace of Python `str.strip` and of the regex class `\s`:
space, tab, newline, carriage return, vertical tab, form feed. -/
def isPyWs (c : Char) : Bool :=
  c = ' ' || c = Char.ofNat 9 || c = Char.ofNat 10 || c = Char.ofNat 13 ||
  c = Char.ofNat 11 || c = Char.ofNat 12

/-- Whitespace accepted between tokens by `json.loads`:
space, tab, newline, carriage return. -/
def isJsonWs (c : Char) : Bool :=
  c = ' ' || c = Char.ofNat 9 || c = Char.ofNat 10 || c = Char.ofNat 13

def dropPyWsL (cs : List Char) : List Char := cs.dropWhile isPyWs

def dropJsonWsL (cs : List Char) : List Char := cs.dropWhile isJsonWs

/-- Python `str.strip()` (restricted to ASCII whitespace). -/
def pyStripL (cs : List Char) : List Char :=
  ((cs.dropWhile isPyWs).reverse.dropWhile isPyWs).reverse

def pyStrip (s : String) : String := String.mk (pyStripL s.data)

/-! ### JSON values and a model of `json.loads`

`Json.num` stores the numeric lexeme verbatim: no numeric semantics are
needed by any claim, only the shape of parsed values. -/

inductive Json where
  | null : Json
  | bool : Bool → Json
  | num : String → Json
  | str : String → Json
  | arr : List Json → Json
  | obj : List (String × Json) → Json

def hexVal? (c : Char) : Option Nat :=
  if '0' ≤ c ∧ c ≤ '9' then some (c.toNat - 48)
  else if 'a' ≤ c ∧ c ≤ 'f' then some (c.toNat - 87)
  else if 'A' ≤ c ∧ c ≤ 'F' then some (c.toNat - 55)
  else none

/-- Parse the body of a JSON string literal (the opening quote already
consumed), handling the escape sequences accepted by strict `json.loads`
and rejecting raw control characters. -/
def parseJStringL : List Char → Option (List Char × List Char)
  | [] => none
  | c :: rest =>
    if c = quoteC then some ([], rest)
    else if c = backslashC then
      match rest with
      | [] => none
      | e :: r2 =>
        if e = quoteC then (parseJStringL r2).map (fun p => (quoteC :: p.1, p.2))
        else if e = backslashC then (parseJStringL r2).map (fun p => (backslashC :: p.1, p.2))
        else if e = '/' then (parseJStringL r2).map (fun p => ('/' :: p.1, p.2))
        else if e = 'b' then (parseJStringL r2).map (fun p => (Char.ofNat 8 :: p.1, p.2))
        else if e = 'f' then (parseJStringL r2).map (fun p => (Char.ofNat 12 :: p.1, p.2))
        else if e = 'n' then (parseJStringL r2).map (fun p => (Char.ofNat 10 :: p.1, p.2))
        else if e = 'r' then (parseJStringL r2).map (fun p => (Char.ofNat 13 :: p.1, p.2))
        else if e = 't' then (parseJStringL r2).map (fun p => (Char.ofNat 9 :: p.1, p.2))
        else if e = 'u' then
          match r2 with
          | h1 :: h2 :: h3 :: h4 :: r3 =>
            match hexVal? h1, hexVal? h2, hexVal? h3, hexVal? h4 with
            | some a, some b, some c2, some d =>
              (parseJStringL r3).map
                (fun p => (Char.ofNat (a * 4096 + b * 256 + c2 * 16 + d) :: p.1, p.2))
            | _, _, _, _ => none
          | _ => none
        else none
    else if c.toNat < 32 then none
    else (parseJStringL rest).map (fun p => (c :: p.1, p.2))

/-- Parse a JSON number lexeme (`-?(0|[1-9][0-9]*)(\.[0-9]+)?([eE][+-]?[0-9]+)?`),
returning the lexeme and the remaining input. -/
def parseNumL (cs : List Char) : Option (List Char × List Char) :=
  let (sign, cs1) :=
    match cs with
    | c :: rest => if c = '-' then ([c], rest) else (([] : List Char), cs)
    | [] => (([] : List Char), cs)
  match cs1 with
  | [] => none
  | c :: rest =>
    if c = '0' ∨ c.isDigit then
      let (ipart, cs2) :=
        if c = '0' then ([c], rest)
        else (c :: rest.takeWhile Char.isDigit, rest.dropWhile Char.isDigit)
      let (fpart, cs3) :=
        match cs2 with
        | d :: r =>
          if d = '.' ∧ (r.takeWhile Char.isDigit) ≠ [] then
            (d :: r.takeWhile Char.isDigit, r.dropWhile Char.isDigit)
          else (([] : List Char), cs2)
        | [] => (([] : List Char), cs2)
      let (epart, cs4) :=
        match cs3 with
        | d :: r =>
          if d = 'e' ∨ d = 'E' then
            let (esign, r1) :=
              match r with
              | s :: r2 => if s = '+' ∨ s = '-' then ([s], r2) else (([] : List Char), r)
              | [] => (([] : List Char), r)
            if (r1.takeWhile Char.isDigit) ≠ [] then
              (d :: (esign ++ r1.takeWhile Char.isDigit), r1.dropWhile Char.isDigit)
            else (([] : List Char), cs3)
          else (([] : List Char), cs3)
        | [] => (([] : List Char), cs3)
      some (sign ++ ipart ++ fpart ++ epart, cs4)
    else none

mutual

/-- Fuelled recursive-descent parser for a JSON value, modelling the
grammar accepted by strict `json.loads`. -/
def parseValue (fuel : Nat) (cs : List Char) : Option (Json × List Char) :=
  match fuel with
  | 0 => none
  | f + 1 =>
    match dropJsonWsL cs with
    | [] => none
    | c :: rest =>
      if c = quoteC then (parseJStringL rest).map (fun p => (Json.str (String.mk p.1), p.2))
      else if c = lbrackC then parseArr f rest
      else if c = lbraceC then parseObjB f rest
      else if c = 't' then
        match rest with
        | 'r' :: 'u' :: 'e' :: r2 => some (Json.bool true, r2)
        | _ => none
      else if c = 'f' then
        match rest with
        | 'a' :: 'l' :: 's' :: 'e' :: r2 => some (Json.bool false, r2)
        | _ => none
      else if c = 'n' then
        match rest with
        | 'u' :: 'l' :: 'l' :: r2 => some (Json.null, r2)
        | _ => none
      else if c = '-' ∨ c.isDigit then
        (parseNumL (c :: rest)).map (fun p => (Json.num (String.mk p.1), p.2))
      else none

/-- Parse an array body (the `[` already consumed). -/
def parseArr (fuel : Nat) (cs : List Char) : Option (Json × List Char) :=
  match fuel with
  | 0 => none
  | f + 1 =>
    match dropJsonWsL cs with
    | [] => none
    | c :: rest =>
      if c = rbrackC then some (Json.arr [], rest)
      else
        match parseValue f cs with
        | none => none
        | some (v, r1) => parseArrRest f [v] r1

/-- Parse the continuation of an array after one element: `,` and another
element, or the closing `]`. -/
def parseArrRest (fuel : Nat) (acc : List Json) (cs : List Char) :
    Option (Json × List Char) :=
  match fuel with
  | 0 => none
  | f + 1 =>
    match dropJsonWsL cs with
    | [] => none
    | c :: rest =>
      if c = rbrackC then some (Json.arr acc.reverse, rest)
      else if c = ',' then
        match parseValue f rest with
        | none => none
        | some (v, r1) => parseArrRest f (v :: acc) r1
      else none

/-- Parse an object body (the opening brace already consumed). -/
def parseObjB (fuel : Nat) (cs : List Char) : Option (Json × List Char) :=
  match fuel with
  | 0 => none
  | f + 1 =>
    match dropJsonWsL cs with
    | [] => none
    | c :: rest =>
      if c = rbraceC then some (Json.obj [], rest)
      else if c = quoteC then
        match parseJStringL rest with
        | none => none
        | some (k, r1) =>
          match dropJsonWsL r1 with
          | ':' :: r2 =>
            match parseValue f r2 with
            | none => none
            | some (v, r3) => parseObjRest f [(String.mk k, v)] r3
          | _ => none
      else none

/-- Parse the continuation of an object after one member. -/
def parseObjRest (fuel : Nat) (acc : List (String × Json)) (cs : List Char) :
    Option (Json × List Char) :=
  match fuel with
  | 0 => none
  | f + 1 =>
    match dropJsonWsL cs with
    | [] => none
    | c :: rest =>
      if c = rbraceC then some (Json.obj acc.reverse, rest)
      else if c = ',' then
        match dropJsonWsL rest with
        | c2 :: r1 =>
          if c2 = quoteC then
            match parseJStringL r1 with
            | none => none
            | some (k, r2) =>
              match dropJsonWsL r2 with
              | ':' :: r3 =>
                match parseValue f r3 with
                | none => none
                | some (v, r4) => parseObjRest f ((String.mk k, v) :: acc) r4
              | _ => none
          else none
        | [] => none
      else none

end

/-- Model of Python `json.loads`: parse one JSON value and require that
only whitespace remains. -/
def jsonParse (s : String) : Option Json :=
  match parseValue (4 * s.data.length + 16) s.data with
  | some (v, rest) => if dropJsonWsL rest = [] then some v else none
  | none => none

/-! ### The recovery pattern of `detect_errors`

`services.py` line 74 applies
`re.match(r'\[\s*(?:\{.*?\}\s*,\s*)*\{.*?\}\s*\]|\[\]', json_str, re.DOTALL)`
to the stripped response.  `re.match` anchors the pattern at position 0;
the alternation tries the array-of-objects branch first with Python's
backtracking order (greedy star over the group, lazy `.*?` inside the
braces, `re.DOTALL` so `.` matches newlines), then the literal `[]`. -/

/-- All suffixes of `cs` that start right after an occurrence of a closing
brace, in left-to-right order.  These are exactly the candidate remainders
of the lazy `\x7b.*?\x7d` sub-pattern, shortest body first. -/
def braceSuffixes : List Char → List (List Char)
  | [] => []
  | c :: cs => if c = rbraceC then cs :: braceSuffixes cs else braceSuffixes cs

/-- Return the first `some` produced by `f` along the list, modelling a
backtracking choice point that tries alternatives in order. -/
def firstSome (l : List α) (f : α → Option β) : Option β :=
  match l with
  | [] => none
  | a :: r =>
    match f a with
    | some b => some b
    | none => firstSome r f

/-- Match `\x7b.*?\x7d\s*\]` at the head of `cs`, returning the remainder
after the `]`.  The lazy dot tries the nearest closing brace first. -/
def matchTailT (cs : List Char) : Option (List Char) :=
  match cs with
  | c :: rest =>
    if c = lbraceC then
      firstSome (braceSuffixes rest) (fun b =>
        match dropPyWsL b with
        | d :: b2 => if d = rbrackC then some b2 else none
        | [] => none)
    else none
  | [] => none

/-- Match `(?:\x7b.*?\x7d\s*,\s*)*\x7b.*?\x7d\s*\]` at the head of `cs`
with Python's backtracking order: the greedy star tries one more group
iteration (all of its internal choice points, nearest brace first) before
falling back to the tail at the current position. -/
def matchStarT (fuel : Nat) (cs : List Char) : Option (List Char) :=
  match fuel with
  | 0 => none
  | f + 1 =>
    let viaIter : Option (List Char) :=
      match cs with
      | c :: rest =>
        if c = lbraceC then
          firstSome (braceSuffixes rest) (fun b =>
            match dropPyWsL b with
            | d :: b2 => if d = ',' then matchStarT f (dropPyWsL b2) else none
            | [] => none)
        else none
      | [] => none
    match viaIter with
    | some r => some r
    | none => matchTailT cs

/-- Model of `re.match(r'\[\s*(?:\{.*?\}\s*,\s*)*\{.*?\}\s*\]|\[\]', s, re.DOTALL)`
followed by `.group(0)`: `none` when the pattern does not match at the
start of `s`, otherwise the matched prefix. -/
def jsonListMatch (s : String) : Option String :=
  match s.data with
  | [] => none
  | c :: rest =>
    if c = lbrackC then
      match matchStarT (s.data.length + 1) (dropPyWsL rest) with
      | some rem => some (String.mk (s.data.take (s.data.length - rem.length)))
      | none =>
        match rest with
        | d :: _ => if d = rbrackC then some (String.mk [lbrackC, rbrackC]) else none
        | [] => none
    else none

/-! ### `detect_errors`: response parsing and validation -/

/-- The error outcomes of the pipeline, mirroring the exceptions raised in
`services.py` / `utils.py`. -/
inductive PipeError where
  /-- `FileNotFoundError` for a missing index (`retrieve` / `load_vector_store`). -/
  | notFound : String → PipeError
  /-- `ValueError` for empty provider content. -/
  | emptyResponse : PipeError
  /-- `ValueError("Response is not a JSON list")`. -/
  | invalidFormat : PipeError
  /-- `ValueError("No valid JSON list found in response")`. -/
  | noJsonFound : PipeError
  /-- `json.JSONDecodeError` escaping from the second `json.loads`. -/
  | decodeFailure : PipeError
  /-- `ValueError("Malformed error object in response")`. -/
  | malformedOutput : PipeError
  /-- `KeyError` from `e['term']`-style access in `generate_report`. -/
  | keyError : PipeError

/-- Whether a dict (association list, as parsed from a JSON object)
contains a key, i.e. Python `key in error`. -/
def hasKey (m : List (String × Json)) (k : String) : Bool :=
  m.any (fun p => p.1 = k)

/-- `isinstance(error, dict) and all(key in error for key in ["term", "error", "location"])`. -/
def isConformingObj (e : Json) : Bool :=
  match e with
  | Json.obj m => hasKey m "term" && hasKey m "error" && hasKey m "location"
  | _ => false

/-- The validation loop of `services.py` lines 80–83: any element that is
not a dict with all three mandatory fields fails the whole detection. -/
def validateFindings (l : List Json) : Except PipeError (List Json) :=
  if l.all isConformingObj then Except.ok l else Except.error PipeError.malformedOutput

/-- The response-handling core of `detect_errors` (`services.py` lines
64–85): empty-content check, strip, direct `json.loads`, `re.match`
recovery on `JSONDecodeError`, and per-element validation. -/
def detectParse (s : String) : Except PipeError (List Json) :=
  if s = "" then Except.error PipeError.emptyResponse
  else
    let t := pyStrip s
    match jsonParse t with
    | some (Json.arr l) => validateFindings l
    | some _ => Except.error PipeError.invalidFormat
    | none =>
      match jsonListMatch t with
      | none => Except.error PipeError.noJsonFound
      | some sub =>
        match jsonParse sub with
        | some (Json.arr l) => validateFindings l
        | some _ => Except.error PipeError.invalidFormat
        | none => Except.error PipeError.decodeFailure

/-! ### Data model: documents, analysis state, partial updates

`State` mirrors the pydantic `State` of `services.py`; `Update` mirrors a
partial-update dictionary returned by a pipeline node, with one `Option`
field per updatable `State` field (LangGraph merges returned keys into
the state; a key absent from the dict is `none` here). -/

/-- A langchain `Document`: page content plus string metadata. -/
structure Doc where
  page_content : String
  metadata : List (String × String)
deriving DecidableEq

/-- The shared pipeline state of `services.py`.  `errors` holds the JSON
objects parsed from the detector response. -/
structure State where
  file_id : String
  query : String
  context : List Doc
  errors : List Json
  report : String
  report_path : String

/-- A partial update returned by one pipeline node. -/
structure Update where
  file_id : Option String
  query : Option String
  context : Option (List Doc)
  errors : Option (List Json)
  report : Option String
  report_path : Option String

/-- The update `\x7b"context": docs\x7d` returned by `retrieve`. -/
def ctxUpdate (docs : List Doc) : Update :=
  ⟨none, none, some docs, none, none, none⟩

/-- The update `\x7b"errors": l\x7d` returned by `detect_errors`. -/
def errsUpdate (l : List Json) : Update :=
  ⟨none, none, none, some l, none, none⟩

/-- The update `\x7b"report": r, "report_path": p\x7d` returned by
`generate_report`. -/
def reportUpdate (r p : String) : Update :=
  ⟨none, none, none, none, some r, some p⟩

/-- LangGraph's merge of a node's partial update into the state: a field
present in the update replaces the state's field, any other field is
carried forward. -/
def applyUpdate (s : State) (u : Update) : State :=
  { file_id := u.file_id.getD s.file_id
    query := u.query.getD s.query
    context := u.context.getD s.context
    errors := u.errors.getD s.errors
    report := u.report.getD s.report
    report_path := u.report_path.getD s.report_path }

/-- One interaction with an external provider.  `embedQuery` is the query
embedding performed by `similarity_search`; the two chat variants carry
the data interpolated into the corresponding prompt template. -/
inductive ProviderCall where
  | embedQuery : String → ProviderCall
  | detectChat : (terms : String) → (context : String) → ProviderCall
  | reportChat : (errorsStr : String) → ProviderCall

/-- `KEY_TERMS` from `config.py`. -/
def KEY_TERMS : List String :=
  ["KYC", "AML", "Fraud Detection", "Transaction Monitoring", "Compliance"]

/-- `", ".join(KEY_TERMS)`. -/
def detectTerms : String := String.intercalate ", " KEY_TERMS

/-- The synthesized retrieval query of `services.py` line 31. -/
def retrieveQuery : String :=
  "Identify technical errors related to: " ++ detectTerms

/-! ### Index store -/

/-- The persisted index root: each `file_id` key maps to the documents of
one saved FAISS index. -/
abbrev Store := List (String × List Doc)

/-- `FAISS.similarity_search(query, k, filter=\x7b"file_id": fid\x7d)`:
the documents whose metadata `file_id` equals `fid`, at most `k` of them
(similarity ordering is represented by list order). -/
def similarity_search (docs : List Doc) (_query : String) (k : Nat)
    (fid : String) : List Doc :=
  (docs.filter (fun d => List.lookup "file_id" d.metadata == some fid)).take k

/-! ### Pipeline stages

Each stage takes the LLM/embedding providers as an oracle and returns its
partial update (or the raised error) together with the trace of provider
calls it performed. -/

/-- `retrieve` (`services.py` lines 24–40): existence check on the index
path first, then load and top-5 similarity search filtered by `file_id`. -/
def retrieve (store : Store) (state : State) :
    Except PipeError Update × List ProviderCall :=
  match List.lookup state.file_id store with
  | none => (Except.error (PipeError.notFound state.file_id), [])
  | some docs =>
    (Except.ok (ctxUpdate (similarity_search docs retrieveQuery 5 state.file_id)),
     [ProviderCall.embedQuery retrieveQuery])

/-- `"\n\n".join(doc.page_content for doc in state.context)`. -/
def ctxJoin (ctx : List Doc) : String :=
  String.intercalate "\n\n" (ctx.map Doc.page_content)

/-- `detect_errors` (`services.py` lines 42–88): short-circuit on
empty/whitespace-only concatenated context, otherwise one chat call whose
response goes through `detectParse`. -/
def detect_errors (llm : ProviderCall → String) (state : State) :
    Except PipeError Update × List ProviderCall :=
  let context := ctxJoin state.context
  if pyStrip context = "" then (Except.ok (errsUpdate []), [])
  else
    let call := ProviderCall.detectChat detectTerms context
    ((detectParse (llm call)).map errsUpdate, [call])

/-- Last-occurrence lookup in a parsed JSON object, matching Python dict
construction where a duplicate key keeps the last value. -/
def jget (e : Json) (k : String) : Option Json :=
  match e with
  | Json.obj m => m.foldl (fun acc p => if p.1 = k then some p.2 else acc) none
  | _ => none

/-- Python `str()` of a parsed JSON value as interpolated by an f-string.
Scalar cases are exact; containers use their JSON rendering (findings
validated by `detect_errors` only ever expose scalar field values in the
modelled runs). -/
def pyStr (fuel : Nat) (j : Json) : String :=
  match fuel with
  | 0 => ""
  | f + 1 =>
    match j with
    | Json.null => "None"
    | Json.bool true => "True"
    | Json.bool false => "False"
    | Json.num lex => lex
    | Json.str s => s
    | Json.arr l =>
      String.mk [lbrackC] ++ String.intercalate ", " (l.map (pyStr f)) ++
        String.mk [rbrackC]
    | Json.obj m =>
      String.mk [lbraceC] ++
        String.intercalate ", " (m.map (fun p => p.1 ++ ": " ++ pyStr f p.2)) ++
        String.mk [rbraceC]

/-- `f"\x7be['term']\x7d: \x7be['error']\x7d (Location: \x7be['location']\x7d)"`;
`none` models the `KeyError` a missing key would raise. -/
def fmtError (e : Json) : Option String :=
  match jget e "term", jget e "error", jget e "location" with
  | some t, some er, some l =>
    some (pyStr 8 t ++ ": " ++ pyStr 8 er ++ " (Location: " ++ pyStr 8 l ++ ")")
  | _, _, _ => none

/-- The `errors_str` of `services.py` line 103. -/
def errorsStr (errors : List Json) : Option String :=
  match errors with
  | [] => some "No errors detected."
  | _ => (errors.mapM fmtError).map (String.intercalate "\n")

/-- `str(TEMP_DIR / f"report_\x7bfile_id\x7d.pdf")`. -/
def reportPath (fid : String) : String := "temp/report_" ++ fid ++ ".pdf"

/-- `generate_report` (`services.py` lines 90–116): format the findings,
one chat call, fail on empty content, else render the PDF and return the
report text and path. -/
def generate_report (llm : ProviderCall → String) (state : State) :
    Except PipeError Update × List ProviderCall :=
  match errorsStr state.errors with
  | none => (Except.error PipeError.keyError, [])
  | some es =>
    let call := ProviderCall.reportChat es
    let response := llm call
    if response = "" then (Except.error PipeError.emptyResponse, [call])
    else
      (Except.ok (reportUpdate response (reportPath state.file_id)), [call])

/-- The compiled LangGraph of `build_graph` (`services.py` lines 118–127):
`START → retrieve → detect_errors → generate_report`, merging each node's
partial update before invoking the next node, aborting on the first
error.  Returns the outcome, the list of stages that executed, and the
full provider-call trace. -/
def runPipeline (store : Store) (llm : ProviderCall → String) (s0 : State) :
    Except PipeError State × List String × List ProviderCall :=
  let (r1, t1) := retrieve store s0
  match r1 with
  | Except.error e => (Except.error e, ["retrieve"], t1)
  | Except.ok u1 =>
    let s1 := applyUpdate s0 u1
    let (r2, t2) := detect_errors llm s1
    match r2 with
    | Except.error e => (Except.error e, ["retrieve", "detect_errors"], t1 ++ t2)
    | Except.ok u2 =>
      let s2 := applyUpdate s1 u2
      let (r3, t3) := generate_report llm s2
      match r3 with
      | Except.error e =>
        (Except.error e, ["retrieve", "detect_errors", "generate_report"],
         t1 ++ t2 ++ t3)
      | Except.ok u3 =>
        (Except.ok (applyUpdate s2 u3),
         ["retrieve", "detect_errors", "generate_report"], t1 ++ t2 ++ t3)

/-! ### Index lifecycle (`utils.py`, `main.py`) -/

/-- The seed document of `FAISS.from_texts([""])`: empty text, no
metadata. -/
def seedDoc : Doc := ⟨"", []⟩

/-- `initialize_vector_store` (`utils.py` lines 70–73): a fresh store
holding only the seed document. -/
def init_vector_store : List Doc := [seedDoc]

/-- Python dict assignment `metadata["file_id"] = file_id`. -/
def setMeta (m : List (String × String)) (k v : String) :
    List (String × String) :=
  (m.filter (fun p => !(p.1 == k))) ++ [(k, v)]

/-- The metadata stamping of `index_documents` (`utils.py` line 77). -/
def stampFileId (d : Doc) (fid : String) : Doc :=
  ⟨d.page_content, setMeta d.metadata "file_id" fid⟩

/-- `index_documents` (`utils.py` lines 75–82): stamp every chunk with the
storage key and add the chunks to the vector store. -/
def index_documents (vs : List Doc) (chunks : List Doc) (fid : String) :
    List Doc :=
  vs ++ chunks.map (fun c => stampFileId c fid)

/-- `save_local`: persist an index under its `file_id` key (overwriting). -/
def persistIndex (store : Store) (fid : String) (docs : List Doc) : Store :=
  (store.filter (fun p => !(p.1 == fid))) ++ [(fid, docs)]

/-- The `/delete/\x7bfile_id\x7d` endpoint (`main.py` lines 115–126):
unlink the index file if it exists; succeed either way. -/
def delete_document (store : Store) (fid : String) : Store × Bool :=
  match List.lookup fid store with
  | some _ => (store.filter (fun p => !(p.1 == fid)), true)
  | none => (store, true)

/-- The indexing retry loop of `upload_file` (`main.py` lines 74–83):
`for attempt in range(3)`, re-raising on the third failure and sleeping
one unit between attempts.  `oracle n` is the outcome of attempt `n`;
the result records the outcome, the number of attempts made and the list
of sleep durations performed. -/
def uploadIndexRetry (oracle : Nat → Except String Unit) :
    Except String Unit × Nat × List Nat :=
  match oracle 0 with
  | Except.ok _ => (Except.ok (), 1, [])
  | Except.error _ =>
    match oracle 1 with
    | Except.ok _ => (Except.ok (), 2, [1])
    | Except.error _ =>
      match oracle 2 with
      | Except.ok _ => (Except.ok (), 3, [1, 1])
      | Except.error e => (Except.error e, 3, [1, 1])

/-! ### Spec-side characterisation for the parsing contract (C2) -/

/-- The response text actually handed to the final parse: the stripped
response when direct parsing succeeds, otherwise the substring recovered
by the pattern match (the stripped response again when nothing is
recovered). -/
def recoveredStr (s : String) : String :=
  let t := pyStrip s
  match jsonParse t with
  | some _ => t
  | none => (jsonListMatch t).getD t

/-- Stated from the spec's words: the provider returned nonempty content
and the (possibly recovered) response parses to a JSON array every
element of which is an object containing the keys `term`, `error` and
`location`. -/
def specConforming (s : String) : Bool :=
  !(s == "") &&
    (match jsonParse (recoveredStr s) with
     | some (Json.arr l) => l.all isConformingObj
     | _ => false)

/-! ### Helper lemmas -/

theorem validate_ok_iff (l : List Json) :
    (∃ l', validateFindings l = Except.ok l') ↔ l.all isConformingObj = true := by
  unfold validateFindings
  by_cases h : l.all isConformingObj = true <;> simp [h]

theorem lookup_erase_self {β : Type} (store : List (String × β)) (fid : String) :
    List.lookup fid (store.filter (fun p => !(p.1 == fid))) = none := by
  induction store with
  | nil => rfl
  | cons hd tl ih =>
    by_cases h : hd.1 = fid
    · simp [List.filter_cons, h, ih]
    · simp [List.filter_cons, beq_false_of_ne h, List.lookup,
        beq_false_of_ne (Ne.symm h), ih]

theorem lookup_setMeta (m : List (String × String)) (k v : String) :
    List.lookup k (setMeta m k v) = some v := by
  unfold setMeta
  induction m with
  | nil => simp [List.lookup]
  | cons hd tl ih =>
    by_cases h : hd.1 = k
    · simp [List.filter_cons, h, ih]
    · simp [List.filter_cons, beq_false_of_ne h, List.lookup,
        beq_false_of_ne (Ne.symm h), ih]

/-- A successful `retrieve` returns an update carrying only `context`. -/
theorem retrieve_ok_shape {store : Store} {s : State} {u : Update}
    {t : List ProviderCall} (h : retrieve store s = (Except.ok u, t)) :
    u.file_id = none ∧ u.query = none ∧ u.errors = none ∧ u.report = none ∧
    u.report_path = none := by
  unfold retrieve at h
  cases hl : List.lookup s.file_id store with
  | none => rw [hl] at h; simp at h
  | some docs =>
    rw [hl] at h
    have hu : Except.ok (ctxUpdate (similarity_search docs retrieveQuery 5 s.file_id)) =
        (Except.ok u : Except PipeError Update) := congrArg Prod.fst h
    have hu2 : u = ctxUpdate (similarity_search docs retrieveQuery 5 s.file_id) :=
      (Except.ok.inj hu).symm
    subst hu2
    exact ⟨rfl, rfl, rfl, rfl, rfl⟩

/-- A successful `detect_errors` returns an update carrying only `errors`. -/
theorem detect_ok_shape {llm : ProviderCall → String} {s : State} {u : Update}
    {t : List ProviderCall} (h : detect_errors llm s = (Except.ok u, t)) :
    u.file_id = none ∧ u.query = none ∧ u.context = none ∧ u.report = none ∧
    u.report_path = none := by
  unfold detect_errors at h
  by_cases hc : pyStrip (ctxJoin s.context) = ""
  · simp only [hc, if_true, reduceIte] at h
    have hu : Except.ok (errsUpdate []) = (Except.ok u : Except PipeError Update) :=
      congrArg Prod.fst h
    have hu2 : u = errsUpdate [] := (Except.ok.inj hu).symm
    subst hu2
    exact ⟨rfl, rfl, rfl, rfl, rfl⟩
  · simp only [hc, if_false, reduceIte] at h
    have hu : (detectParse (llm (ProviderCall.detectChat detectTerms
        (ctxJoin s.context)))).map errsUpdate = (Except.ok u : Except PipeError Update) :=
      congrArg Prod.fst h
    cases hd : detectParse (llm (ProviderCall.detectChat detectTerms (ctxJoin s.context))) with
    | error e => rw [hd] at hu; simp [Except.map] at hu
    | ok l =>
      rw [hd] at hu
      simp only [Except.map] at hu
      have hu2 : u = errsUpdate l := (Except.ok.inj hu).symm
      subst hu2
      exact ⟨rfl, rfl, rfl, rfl, rfl⟩

/-- A successful `generate_report` returns an update carrying only
`report` and `report_path`. -/
theorem report_ok_shape {llm : ProviderCall → String} {s : State} {u : Update}
    {t : List ProviderCall} (h : generate_report llm s = (Except.ok u, t)) :
    u.file_id = none ∧ u.query = none ∧ u.context = none ∧ u.errors = none := by
  unfold generate_report at h
  cases he : errorsStr s.errors with
  | none => rw [he] at h; simp at h
  | some es =>
    rw [he] at h
    by_cases hr : llm (ProviderCall.reportChat es) = ""
    · simp only [hr, if_true, reduceIte] at h
      simp at h
    · simp only [hr, if_false, reduceIte] at h
      have hu : Except.ok (reportUpdate (llm (ProviderCall.reportChat es))
          (reportPath s.file_id)) = (Except.ok u : Except PipeError Update) :=
        congrArg Prod.fst h
      have hu2 : u = reportUpdate (llm (ProviderCall.reportChat es))
          (reportPath s.file_id) := (Except.ok.inj hu).symm
      subst hu2
      exact ⟨rfl, rfl, rfl, rfl⟩

/-! ### Claims -/

/-- The raw LLM response of claim C1 and §8 of the spec: a well-formed
array of one finding preceded by non-JSON prose. -/
def c1Response : String :=
  "Sure! Here are the findings: [\x7b\"term\":\"KYC\",\"error\":\"missing\",\"location\":\"Sec 1\"\x7d]"

/-- The embedded JSON-array substring of `c1Response` on its own. -/
def c1Embedded : String :=
  "[\x7b\"term\":\"KYC\",\"error\":\"missing\",\"location\":\"Sec 1\"\x7d]"

/-- C1: the spec requires the recovery step to extract the first
well-formed JSON-array-of-objects substring anywhere in the response, so
that `c1Response` yields exactly one Finding.  The code instead anchors
the pattern with `re.match`, so the very substring that parses to one
conforming finding on its own is not found when prose precedes it, and
detection fails with `ValueError("No valid JSON list found in response")`
instead of returning that finding. -/
theorem claim_C1_prefixed_prose_recovery_fails :
    detectParse c1Response = Except.error PipeError.noJsonFound ∧
    detectParse c1Embedded =
      Except.ok [Json.obj [("term", Json.str "KYC"), ("error", Json.str "missing"),
                           ("location", Json.str "Sec 1")]] := by
  constructor <;> rfl

/-- C2: the detector returns a findings list exactly when the (possibly
recovered) response parses to a JSON array all of whose elements are
objects carrying the three mandatory keys; in every other case it fails
with an error rather than returning an empty or partial list. -/
theorem claim_C2_detect_ok_iff_conforming (s : String) :
    (∃ l, detectParse s = Except.ok l) ↔ specConforming s = true := by
  unfold detectParse specConforming recoveredStr
  by_cases h : s = ""
  · simp [h]
  · simp only [h, beq_iff_eq, if_false, if_neg, Bool.not_eq_eq_eq_not,
      Bool.not_true, Bool.true_and, decide_eq_false_iff_not, not_false_eq_true,
      Bool.not_false]
    cases hp : jsonParse (pyStrip s) with
    | some v =>
      cases v <;> simp [hp, validate_ok_iff, h]
    | none =>
      cases hm : jsonListMatch (pyStrip s) with
      | none => simp [hp, hm, h]
      | some sub =>
        cases hq : jsonParse sub with
        | some v => cases v <;> simp [hp, hm, hq, validate_ok_iff, h]
        | none => simp [hp, hm, hq, h]

/-- C3: when the context chunks concatenate to an empty or
whitespace-only string (the zero-chunk case included), `detect_errors`
short-circuits to an empty findings list and performs no provider call. -/
theorem claim_C3_empty_context_short_circuit (llm : ProviderCall → String)
    (s : State) (h : pyStrip (ctxJoin s.context) = "") :
    detect_errors llm s = (Except.ok (errsUpdate []), []) := by
  unfold detect_errors
  simp [h]

theorem claim_C3_witness :
    detect_errors (fun _ => "[\x7b\"term\":\"a\",\"error\":\"b\",\"location\":\"c\"\x7d]")
        ⟨"f1", "q", [⟨"  ", []⟩, ⟨" ", []⟩], [], "", ""⟩ =
      (Except.ok (errsUpdate []), []) :=
  claim_C3_empty_context_short_circuit _ _ (by rfl)

/-- C4: when no index is persisted for the state's `file_id`, `retrieve`
fails with the not-found error before loading anything, and the whole
pipeline aborts after the retrieve stage with an empty provider-call
trace — no embedding and no LLM call is made. -/
theorem claim_C4_missing_index_not_found (store : Store)
    (llm : ProviderCall → String) (s : State)
    (h : List.lookup s.file_id store = none) :
    retrieve store s = (Except.error (PipeError.notFound s.file_id), []) ∧
    runPipeline store llm s =
      (Except.error (PipeError.notFound s.file_id), ["retrieve"], []) := by
  unfold runPipeline retrieve
  simp [h]

theorem claim_C4_witness :
    retrieve [] ⟨"f1", "q", [], [], "", ""⟩ =
      (Except.error (PipeError.notFound "f1"), []) ∧
    runPipeline [] (fun _ => "resp") ⟨"f1", "q", [], [], "", ""⟩ =
      (Except.error (PipeError.notFound "f1"), ["retrieve"], []) :=
  claim_C4_missing_index_not_found [] (fun _ => "resp") ⟨"f1", "q", [], [], "", ""⟩
    (by rfl)

/-- C8: deletion is idempotent — both calls succeed, and the second call,
finding no persisted index, leaves the store exactly as the first call
left it. -/
theorem claim_C8_delete_idempotent (store : Store) (fid : String) :
    (delete_document store fid).2 = true ∧
    (delete_document (delete_document store fid).1 fid).2 = true ∧
    (delete_document (delete_document store fid).1 fid).1 =
      (delete_document store fid).1 := by
  unfold delete_document
  cases hl : List.lookup fid store with
  | none => simp [hl]
  | some docs => simp [hl, lookup_erase_self]

/-- C5: the pipeline is the strictly linear sequence retrieve →
detect_errors → generate_report; in any run where retrieve succeeds with
zero chunks (and the report-stage provider returns content, so no stage
raises) all three stages execute and the run terminates with a produced
report and report path. -/
theorem claim_C5_zero_chunks_full_run (store : Store)
    (llm : ProviderCall → String) (s0 : State) (t1 : List ProviderCall)
    (hret : retrieve store s0 = (Except.ok (ctxUpdate []), t1))
    (hrep : llm (ProviderCall.reportChat "No errors detected.") ≠ "") :
    runPipeline store llm s0 =
      (Except.ok
        { file_id := s0.file_id, query := s0.query, context := [], errors := [],
          report := llm (ProviderCall.reportChat "No errors detected."),
          report_path := reportPath s0.file_id },
       ["retrieve", "detect_errors", "generate_report"],
       t1 ++ [ProviderCall.reportChat "No errors detected."]) := by
  unfold runPipeline
  rw [hret]
  have hdet : detect_errors llm (applyUpdate s0 (ctxUpdate [])) =
      (Except.ok (errsUpdate []), []) := rfl
  dsimp only
  rw [hdet]
  dsimp only
  unfold generate_report
  have herr : errorsStr (applyUpdate (applyUpdate s0 (ctxUpdate [])) (errsUpdate [])).errors =
      some "No errors detected." := rfl
  rw [herr]
  dsimp only
  rw [if_neg hrep]
  simp [applyUpdate, ctxUpdate, errsUpdate, reportUpdate]

theorem claim_C5_witness :
    runPipeline [("f1", [seedDoc])] (fun _ => "brief compliant report")
        ⟨"f1", "q", [], [], "", ""⟩ =
      (Except.ok
        { file_id := "f1", query := "q", context := [], errors := [],
          report := "brief compliant report", report_path := reportPath "f1" },
       ["retrieve", "detect_errors", "generate_report"],
       [ProviderCall.embedQuery retrieveQuery,
        ProviderCall.reportChat "No errors detected."]) :=
  claim_C5_zero_chunks_full_run [("f1", [seedDoc])] (fun _ => "brief compliant report")
    ⟨"f1", "q", [], [], "", ""⟩ [ProviderCall.embedQuery retrieveQuery]
    (by rfl) (by decide)

/-- C6: each stage's update touches only its own fields — after merging,
every field a stage does not own is carried forward unchanged, and over a
whole successful run `file_id` and `query` are those of the input state. -/
theorem claim_C6_frame_per_stage (store : Store) (llm : ProviderCall → String)
    (s : State) (u1 u2 u3 : Update) (t1 t2 t3 : List ProviderCall)
    (h1 : retrieve store s = (Except.ok u1, t1))
    (h2 : detect_errors llm (applyUpdate s u1) = (Except.ok u2, t2))
    (h3 : generate_report llm (applyUpdate (applyUpdate s u1) u2) = (Except.ok u3, t3)) :
    ((applyUpdate s u1).file_id = s.file_id ∧ (applyUpdate s u1).query = s.query ∧
      (applyUpdate s u1).errors = s.errors ∧ (applyUpdate s u1).report = s.report ∧
      (applyUpdate s u1).report_path = s.report_path) ∧
    ((applyUpdate (applyUpdate s u1) u2).file_id = (applyUpdate s u1).file_id ∧
      (applyUpdate (applyUpdate s u1) u2).query = (applyUpdate s u1).query ∧
      (applyUpdate (applyUpdate s u1) u2).context = (applyUpdate s u1).context ∧
      (applyUpdate (applyUpdate s u1) u2).report = (applyUpdate s u1).report ∧
      (applyUpdate (applyUpdate s u1) u2).report_path = (applyUpdate s u1).report_path) ∧
    ((applyUpdate (applyUpdate (applyUpdate s u1) u2) u3).file_id =
        (applyUpdate (applyUpdate s u1) u2).file_id ∧
      (applyUpdate (applyUpdate (applyUpdate s u1) u2) u3).query =
        (applyUpdate (applyUpdate s u1) u2).query ∧
      (applyUpdate (applyUpdate (applyUpdate s u1) u2) u3).context =
        (applyUpdate (applyUpdate s u1) u2).context ∧
      (applyUpdate (applyUpdate (applyUpdate s u1) u2) u3).errors =
        (applyUpdate (applyUpdate s u1) u2).errors) ∧
    runPipeline store llm s =
      (Except.ok (applyUpdate (applyUpdate (applyUpdate s u1) u2) u3),
       ["retrieve", "detect_errors", "generate_report"], t1 ++ t2 ++ t3) ∧
    (applyUpdate (applyUpdate (applyUpdate s u1) u2) u3).file_id = s.file_id ∧
    (applyUpdate (applyUpdate (applyUpdate s u1) u2) u3).query = s.query := by
  obtain ⟨a1, b1, c1, d1, e1⟩ := retrieve_ok_shape h1
  obtain ⟨a2, b2, c2, d2, e2⟩ := detect_ok_shape h2
  obtain ⟨a3, b3, c3, d3⟩ := report_ok_shape h3
  refine ⟨⟨?_, ?_, ?_, ?_, ?_⟩, ⟨?_, ?_, ?_, ?_, ?_⟩, ⟨?_, ?_, ?_, ?_⟩, ?_, ?_, ?_⟩
  case _ => simp [applyUpdate, a1]
  case _ => simp [applyUpdate, b1]
  case _ => simp [applyUpdate, c1]
  case _ => simp [applyUpdate, d1]
  case _ => simp [applyUpdate, e1]
  case _ => simp [applyUpdate, a2]
  case _ => simp [applyUpdate, b2]
  case _ => simp [applyUpdate, c2]
  case _ => simp [applyUpdate, d2]
  case _ => simp [applyUpdate, e2]
  case _ => simp [applyUpdate, a3]
  case _ => simp [applyUpdate, b3]
  case _ => simp [applyUpdate, c3]
  case _ => simp [applyUpdate, d3]
  case _ => simp [runPipeline, h1, h2, h3]
  case _ => simp [applyUpdate, a1, a2, a3]
  case _ => simp [applyUpdate, b1, b2, b3]

/-- Concrete run inputs for the C6 witness. -/
def c6Chunk : Doc := ⟨"hello", [("file_id", "f1")]⟩

def c6Store : Store := [("f1", [c6Chunk])]

def c6State : State := ⟨"f1", "q", [], [], "", ""⟩

def c6LLM : ProviderCall → String := fun c =>
  match c with
  | ProviderCall.detectChat _ _ => "[]"
  | ProviderCall.reportChat _ => "all good"
  | ProviderCall.embedQuery _ => ""

theorem claim_C6_witness :
    runPipeline c6Store c6LLM c6State =
      (Except.ok (applyUpdate (applyUpdate (applyUpdate c6State (ctxUpdate [c6Chunk]))
          (errsUpdate [])) (reportUpdate "all good" (reportPath "f1"))),
       ["retrieve", "detect_errors", "generate_report"],
       [ProviderCall.embedQuery retrieveQuery] ++
         [ProviderCall.detectChat detectTerms "hello"] ++
         [ProviderCall.reportChat "No errors detected."]) ∧
    (applyUpdate (applyUpdate (applyUpdate c6State (ctxUpdate [c6Chunk])) (errsUpdate []))
        (reportUpdate "all good" (reportPath "f1"))).file_id = c6State.file_id ∧
    (applyUpdate (applyUpdate (applyUpdate c6State (ctxUpdate [c6Chunk])) (errsUpdate []))
        (reportUpdate "all good" (reportPath "f1"))).query = c6State.query :=
  (claim_C6_frame_per_stage c6Store c6LLM c6State
    (ctxUpdate [c6Chunk]) (errsUpdate []) (reportUpdate "all good" (reportPath "f1"))
    [ProviderCall.embedQuery retrieveQuery]
    [ProviderCall.detectChat detectTerms "hello"]
    [ProviderCall.reportChat "No errors detected."]
    (by rfl) (by rfl) (by rfl)).2.2.2

/-- The pipeline never reads the user-supplied `query` field: running it
on a state with any `query` value gives the same stages, the same
provider calls and the same outcome, with only the carried-through
`query` field differing. -/
theorem runPipeline_query_indep (store : Store) (llm : ProviderCall → String)
    (s : State) (q : String) :
    runPipeline store llm { s with query := q } =
      ((runPipeline store llm s).1.map (fun st => { st with query := q }),
       (runPipeline store llm s).2) := by
  unfold runPipeline
  rcases hr : retrieve store s with ⟨r1, t1⟩
  have hr2 : retrieve store { s with query := q } = (r1, t1) := hr
  rw [hr2]
  cases r1 with
  | error e => rfl
  | ok u1 =>
    obtain ⟨fa, fq, fe, fr, fp⟩ := retrieve_ok_shape hr
    dsimp only
    rcases hd : detect_errors llm (applyUpdate s u1) with ⟨r2, t2⟩
    have hd2 : detect_errors llm (applyUpdate { s with query := q } u1) = (r2, t2) := hd
    rw [hd2]
    cases r2 with
    | error e => rfl
    | ok u2 =>
      obtain ⟨ga, gq, gc, gr, gp⟩ := detect_ok_shape hd
      dsimp only
      rcases hg : generate_report llm (applyUpdate (applyUpdate s u1) u2) with ⟨r3, t3⟩
      have hg2 : generate_report llm
          (applyUpdate (applyUpdate { s with query := q } u1) u2) = (r3, t3) := hg
      rw [hg2]
      cases r3 with
      | error e => rfl
      | ok u3 =>
        obtain ⟨ka, kq, kc, ke⟩ := report_ok_shape hg
        simp [Except.map, applyUpdate, fq, gq, kq]

/-- C7: the retrieval query is synthesized from the fixed term list and
the `query` field of the state is never read — two runs over the same
store and providers whose input states differ only in `query` produce
identical stage updates, traces and outcomes (up to the untouched `query`
field itself). -/
theorem claim_C7_query_never_read (store : Store) (llm : ProviderCall → String)
    (s : State) (q1 q2 : String) :
    retrieveQuery = "Identify technical errors related to: " ++
      String.intercalate ", " KEY_TERMS ∧
    (runPipeline store llm { s with query := q1 }).1.map
        (fun st => { st with query := "" }) =
      (runPipeline store llm { s with query := q2 }).1.map
        (fun st => { st with query := "" }) ∧
    (runPipeline store llm { s with query := q1 }).2 =
      (runPipeline store llm { s with query := q2 }).2 := by
  rw [runPipeline_query_indep store llm s q1, runPipeline_query_indep store llm s q2]
  refine ⟨rfl, ?_, rfl⟩
  cases (runPipeline store llm s).1 <;> rfl

/-- C9: the indexing step of upload is attempted at most 3 times with a
fixed 1-unit sleep between attempts, the third failure propagates, and no
pipeline stage ever performs more than one provider call — there is no
retry during analysis. -/
theorem claim_C9_retry_only_during_indexing
    (oracle : Nat → Except String Unit) (llm : ProviderCall → String)
    (s : State) (e0 e1 e2 : String)
    (h0 : oracle 0 = Except.error e0) (h1 : oracle 1 = Except.error e1)
    (h2 : oracle 2 = Except.error e2) :
    uploadIndexRetry oracle = (Except.error e2, 3, [1, 1]) ∧
    (∀ oracle2 : Nat → Except String Unit, (uploadIndexRetry oracle2).2.1 ≤ 3) ∧
    (detect_errors llm s).2.length ≤ 1 ∧
    (generate_report llm s).2.length ≤ 1 := by
  refine ⟨?_, ?_, ?_, ?_⟩
  · unfold uploadIndexRetry
    rw [h0, h1, h2]
  · intro oracle2
    unfold uploadIndexRetry
    cases oracle2 0 <;> cases oracle2 1 <;> cases oracle2 2 <;> simp
  · unfold detect_errors
    by_cases hc : pyStrip (ctxJoin s.context) = "" <;> simp [hc]
  · unfold generate_report
    cases he : errorsStr s.errors with
    | none => simp
    | some es => by_cases hr : llm (ProviderCall.reportChat es) = "" <;> simp [hr]

theorem claim_C9_witness :
    uploadIndexRetry (fun _ => Except.error "embed provider down") =
      (Except.error "embed provider down", 3, [1, 1]) ∧
    (∀ oracle2 : Nat → Except String Unit, (uploadIndexRetry oracle2).2.1 ≤ 3) ∧
    (detect_errors (fun _ => "[]") ⟨"f1", "q", [⟨"text", []⟩], [], "", ""⟩).2.length ≤ 1 ∧
    (generate_report (fun _ => "[]") ⟨"f1", "q", [⟨"text", []⟩], [], "", ""⟩).2.length ≤ 1 :=
  claim_C9_retry_only_during_indexing (fun _ => Except.error "embed provider down")
    (fun _ => "[]") ⟨"f1", "q", [⟨"text", []⟩], [], "", ""⟩
    "embed provider down" "embed provider down" "embed provider down"
    (by rfl) (by rfl) (by rfl)

/-- Every chunk of a freshly indexed store is the seed or is stamped with
the index's own key. -/
def seedOrStamped (fid : String) (d : Doc) : Bool :=
  d == seedDoc || List.lookup "file_id" d.metadata == some fid

/-- C10: a vector store is initialized with one seed document (empty
text, no metadata) and `index_documents` stamps `file_id` onto every
chunk, so every chunk of a persisted index is the seed or carries the
index's key — and the `file_id`-equality filter of `retrieve` never
returns the seed chunk or a chunk of another document. -/
theorem claim_C10_index_isolation (chunks : List Doc) (fid q : String) (k : Nat) :
    (index_documents init_vector_store chunks fid).all (seedOrStamped fid) = true ∧
    (similarity_search (index_documents init_vector_store chunks fid) q k fid).all
      (fun d => (List.lookup "file_id" d.metadata == some fid) && !(d == seedDoc)) =
      true := by
  constructor
  · rw [List.all_eq_true]
    intro d hd
    unfold index_documents init_vector_store at hd
    rcases List.mem_append.mp hd with hseed | hstamp
    · have : d = seedDoc := by simpa using hseed
      subst this
      simp [seedOrStamped]
    · obtain ⟨c, _, hc⟩ := List.mem_map.mp hstamp
      subst hc
      simp [seedOrStamped, stampFileId, lookup_setMeta]
  · rw [List.all_eq_true]
    intro d hd
    unfold similarity_search at hd
    have hd2 := List.mem_of_mem_take hd
    have hd3 := List.mem_filter.mp hd2
    have hlk : List.lookup "file_id" d.metadata = some fid := by
      have := hd3.2
      simpa using this
    have hns : ¬ d = seedDoc := by
      intro hdeq
      rw [hdeq] at hlk
      simp [seedDoc, List.lookup] at hlk
    simp [hlk, hns]

end BankingRag
